import Mathlib

/-!
Verification of the rule-based code-analysis engine (`CodeLensAgent` in
`server/services/codeLensAgent.py`).

The engine is embedded shallowly:
* Python `re` patterns are represented by an explicit regular-expression AST
  (`RE`) together with a backtracking matcher that reproduces Python's
  leftmost / first-alternative / greedy-vs-lazy disambiguation.  The matcher
  carries a fuel argument only to make the recursion structural; the fuel
  supplied by `matchAt` is far larger than the depth any of the embedded
  patterns can reach on the given text.
* `re.finditer` / `re.findall` are embedded by `patternMatches`, which scans
  every start offset from the left and, after a successful match, resumes
  right after the matched span (`max len 1` characters further), exactly as
  Python's scanners do for the non-empty-match patterns used by the agent.
* Python strings are `String`/`List Char`; `str.split('\n')`, `str.strip()`,
  `str.lstrip()` and `'sub' in s` are embedded by `splitLines`, `pyStrip`,
  `takeWhile isPySpace` and `containsSub`.  The character classes `\s`, `\w`,
  `\d` are their ASCII readings.
* Python numbers are `Nat`/`Int`; the few float computations
  (`* 0.4`, `/ file_count`, `round(x, 1)`) are modelled exactly over `ℚ`.
-/

namespace CodeLens

/-- Python's `\w` word character (ASCII reading): letters, digits, underscore. -/
def isPyWord (c : Char) : Bool := c.isAlphanum || c == '_'

/-- Python's `\s` whitespace (ASCII reading): space, tab, newline, carriage
return, vertical tab, form feed. -/
def isPySpace (c : Char) : Bool :=
  c == ' ' || c == '\t' || c == '\n' || c == '\r' || c == '\x0b' || c == '\x0c'

/-- Regular-expression AST covering the constructs used by the agent's
patterns: character classes, sequencing, ordered alternation, counted
repetition (`rep n greedy a` is Python's `a{n,}` resp. `a{n,}?`; `n = 0`
gives `*`, `n = 1` gives `+`) and the word boundary `\b`. -/
inductive RE where
  | eps : RE
  | cls (p : Char → Bool) : RE
  | seq (a b : RE) : RE
  | alt (a b : RE) : RE
  | rep (n : Nat) (greedy : Bool) (a : RE) : RE
  | wb : RE

/-- Size bound used to compute a sufficient fuel for the matcher. -/
def reSize : RE → Nat
  | .eps => 1
  | .cls _ => 1
  | .wb => 1
  | .seq a b => 1 + reSize a + reSize b
  | .alt a b => 1 + reSize a + reSize b
  | .rep n _ a => 1 + (n + 2) * (reSize a + 1)

/-- Python's `\b`: the previous and next characters disagree on wordness. -/
def atWordBoundary (prev : Option Char) (s : List Char) : Bool :=
  let pw := match prev with
    | some c => isPyWord c
    | none => false
  let nw := match s with
    | c :: _ => isPyWord c
    | [] => false
  pw != nw

/-- Backtracking regex matcher in continuation-passing style.  `prev` is the
character just before the current position (for `\b`), `k` receives the new
`prev` and the remaining input.  Alternation prefers the left branch, greedy
repetition prefers one more iteration, lazy repetition prefers stopping —
Python's disambiguation.  A repetition iteration must consume at least one
character (Python stops repeating on an empty iteration). -/
def matchRE : Nat → RE → Option Char → List Char →
    (Option Char → List Char → Option Nat) → Option Nat
  | 0, _, _, _, _ => none
  | _ + 1, .eps, prev, s, k => k prev s
  | _ + 1, .cls p, _, s, k =>
      match s with
      | [] => none
      | c :: rest => if p c then k (some c) rest else none
  | fuel + 1, .seq a b, prev, s, k =>
      matchRE fuel a prev s (fun p2 s2 => matchRE fuel b p2 s2 k)
  | fuel + 1, .alt a b, prev, s, k =>
      (matchRE fuel a prev s k).orElse (fun _ => matchRE fuel b prev s k)
  | _ + 1, .wb, prev, s, k => if atWordBoundary prev s then k prev s else none
  | fuel + 1, .rep (n + 1) g a, prev, s, k =>
      matchRE fuel a prev s (fun p2 s2 => matchRE fuel (.rep n g a) p2 s2 k)
  | fuel + 1, .rep 0 g a, prev, s, k =>
      let more := fun p2 (s2 : List Char) =>
        if s2.length < s.length then matchRE fuel (.rep 0 g a) p2 s2 k else none
      if g then (matchRE fuel a prev s more).orElse (fun _ => k prev s)
      else (k prev s).orElse (fun _ => matchRE fuel a prev s more)

/-- Fuel that is amply sufficient for any of the embedded patterns on `s`. -/
def matchFuel (re : RE) (s : List Char) : Nat := (reSize re + 2) * (s.length + 2)

/-- Length of the match of `re` at the current position, if any
(Python `re.match` semantics at one position). -/
def matchAt (re : RE) (prev : Option Char) (s : List Char) : Option Nat :=
  matchRE (matchFuel re s) re prev s (fun _ s2 => some (s.length - s2.length))

/-- Advance `n` characters, tracking the character just before the new
position. -/
def advance : Option Char → List Char → Nat → Option Char × List Char
  | prev, s, 0 => (prev, s)
  | prev, [], _ + 1 => (prev, [])
  | _, c :: t, n + 1 => advance (some c) t n

/-- Scanner loop of `re.finditer`: try each start offset from the left; after
a match of length `len` at offset `i`, resume at `i + max len 1`.  Returns the
list of `(start offset, match length)` pairs. -/
def findAux (re : RE) : Nat → Option Char → List Char → Nat → List (Nat × Nat)
  | 0, _, _, _ => []
  | fuel + 1, prev, s, i =>
      match matchAt re prev s with
      | some len =>
          let step := max len 1
          let next := advance prev s step
          (i, len) :: findAux re fuel next.1 next.2 (i + step)
      | none =>
          match s with
          | [] => []
          | c :: t => findAux re fuel (some c) t (i + 1)

/-- All non-overlapping matches of `re` in `s`, leftmost first
(`re.finditer`; `len(re.findall(...))` is the length of this list). -/
def patternMatches (re : RE) (s : List Char) : List (Nat × Nat) :=
  findAux re (s.length + 1) none s 0

/-- Single literal character. -/
def lit (c : Char) : RE := .cls (fun d => d == c)

/-- Case-insensitive literal character (`re.IGNORECASE`). -/
def litCI (c : Char) : RE := .cls (fun d => d.toLower == c.toLower)

def litSeq : List Char → RE
  | [] => .eps
  | c :: t => .seq (lit c) (litSeq t)

/-- Literal string. -/
def litStr (s : String) : RE := litSeq s.data

def litSeqCI : List Char → RE
  | [] => .eps
  | c :: t => .seq (litCI c) (litSeqCI t)

/-- Case-insensitive literal string. -/
def litStrCI (s : String) : RE := litSeqCI s.data

/-- `\s` -/
def clsS : RE := .cls isPySpace

/-- `\w` -/
def clsW : RE := .cls isPyWord

/-- `\d` -/
def clsD : RE := .cls Char.isDigit

/-- `.` without `re.DOTALL`: any character except newline. -/
def dotNoNl : RE := .cls (fun c => c != '\n')

/-- `.` under `re.DOTALL`: any character. -/
def dotAll : RE := .cls (fun _ => true)

/-- `r*` (greedy) -/
def star (r : RE) : RE := .rep 0 true r

/-- `r+` (greedy) -/
def plus (r : RE) : RE := .rep 1 true r

/-- `r*?` (lazy) -/
def starLazy (r : RE) : RE := .rep 0 false r

/-- The class `["\']`. -/
def quoteCls : RE := .cls (fun c => c == '\x22' || c == '\x27')

/-- The class `[^"\']`. -/
def notQuoteCls : RE := .cls (fun c => !(c == '\x22' || c == '\x27'))

def seqL : List RE → RE
  | [] => .eps
  | r :: t => .seq r (seqL t)

/-- A detection rule: name, matcher, severity, description
(the `PatternRule` entries of `_load_vulnerability_patterns` and
`_load_performance_patterns`). -/
structure PatternDef where
  name : String
  re : RE
  severity : String
  description : String

/-- `(execute|query)\s*\(\s*["\'].*\+.*["\']` -/
def sqlInjectionRE : RE :=
  seqL [.alt (litStr "execute") (litStr "query"), star clsS, lit '(', star clsS,
    quoteCls, star dotNoNl, lit '+', star dotNoNl, quoteCls]

/-- `innerHTML\s*=\s*.*\+` -/
def xssRE : RE :=
  seqL [litStr "innerHTML", star clsS, lit '=', star clsS, star dotNoNl, lit '+']

/-- `(password|api_key|secret)\s*=\s*["\'][^"\']+["\']` -/
def hardcodedCredentialsRE : RE :=
  seqL [.alt (litStr "password") (.alt (litStr "api_key") (litStr "secret")),
    star clsS, lit '=', star clsS, quoteCls, plus notQuoteCls, quoteCls]

/-- `Math\.random\(\)` -/
def insecureRandomRE : RE := litStr "Math.random()"

/-- `self.vulnerability_patterns` from `_load_vulnerability_patterns`. -/
def vulnerability_patterns : List PatternDef :=
  [⟨"SQL Injection", sqlInjectionRE, "HIGH", "Potential SQL injection vulnerability"⟩,
   ⟨"XSS Vulnerability", xssRE, "MEDIUM", "Potential XSS vulnerability through innerHTML"⟩,
   ⟨"Hardcoded Credentials", hardcodedCredentialsRE, "HIGH", "Hardcoded credentials found"⟩,
   ⟨"Insecure Random", insecureRandomRE, "LOW", "Using insecure random number generation"⟩]

/-- `for\s+.*in.*:\s*\n\s*.*\.query\(` -/
def nPlusOneRE : RE :=
  seqL [litStr "for", plus clsS, star dotNoNl, litStr "in", star dotNoNl, lit ':',
    star clsS, lit '\n', star clsS, star dotNoNl, litStr ".query("]

/-- `for\s+.*in.*:\s*\n\s*for\s+.*in.*:` -/
def nestedLoopsRE : RE :=
  seqL [litStr "for", plus clsS, star dotNoNl, litStr "in", star dotNoNl, lit ':',
    star clsS, lit '\n', star clsS, litStr "for", plus clsS, star dotNoNl,
    litStr "in", star dotNoNl, lit ':']

/-- `(requests\.get|urllib\.urlopen)\(` -/
def synchronousIoRE : RE :=
  .seq (.alt (litStr "requests.get") (litStr "urllib.urlopen")) (lit '(')

/-- `self.performance_patterns` from `_load_performance_patterns`. -/
def performance_patterns : List PatternDef :=
  [⟨"N+1 Query", nPlusOneRE, "MEDIUM", "Potential N+1 query problem"⟩,
   ⟨"Nested Loops", nestedLoopsRE, "LOW", "Nested loops may cause performance issues"⟩,
   ⟨"Synchronous IO", synchronousIoRE, "MEDIUM", "Synchronous IO operation"⟩]

/-- All matches of one rule's pattern in `content`
(`re.finditer(rule['pattern'], content, re.MULTILINE)`; none of the agent's
patterns uses `^`/`$`, so `re.MULTILINE` is inert). -/
def rule_matches (p : PatternDef) (content : String) : List (Nat × Nat) :=
  patternMatches p.re content.data

/-- 1-based line number of the character at offset `start`:
`content[:match.start()].count('\n') + 1`. -/
def lineNumberAt (s : List Char) (start : Nat) : Nat :=
  (s.take start).countP (fun c => c == '\n') + 1

/-- The matched text `match.group()`. -/
def matchedChars (s : List Char) (start len : Nat) : List Char :=
  (s.drop start).take len

/-- One entry of the list returned by `_scan_security_vulnerabilities`. -/
structure SecurityIssue where
  name : String
  severity : String
  description : String
  line_number : Nat
  matched_code : String
deriving DecidableEq

/-- `_scan_security_vulnerabilities`: for each vulnerability rule in registry
order, report every match with its 1-based line number and the (untruncated)
matched text. -/
def scan_security_vulnerabilities (content : String) : List SecurityIssue :=
  (vulnerability_patterns.map (fun p =>
    (rule_matches p content).map (fun m =>
      { name := p.name, severity := p.severity, description := p.description,
        line_number := lineNumberAt content.data m.1,
        matched_code := String.mk (matchedChars content.data m.1 m.2) }))).flatten

/-- `_get_performance_suggestion`. -/
def get_performance_suggestion (pattern_name : String) : String :=
  if pattern_name == "N+1 Query" then "Consider using batch queries or eager loading"
  else if pattern_name == "Nested Loops" then
    "Consider using more efficient algorithms or data structures"
  else if pattern_name == "Synchronous IO" then
    "Consider using async/await or threading for IO operations"
  else "Review for potential optimization"

/-- One entry of the list returned by `_analyze_performance_patterns`. -/
structure PerformanceIssue where
  name : String
  severity : String
  description : String
  line_number : Nat
  suggestion : String
deriving DecidableEq

/-- `_analyze_performance_patterns`: for each performance rule in registry
order, report every match with its line number and a suggestion. -/
def analyze_performance_patterns (content : String) : List PerformanceIssue :=
  (performance_patterns.map (fun p =>
    (rule_matches p content).map (fun m =>
      { name := p.name, severity := p.severity, description := p.description,
        line_number := lineNumberAt content.data m.1,
        suggestion := get_performance_suggestion p.name }))).flatten

/-- `(?:\n(?:.*\n)*?)` — one newline followed by a lazy run of further
`.*\n` line chunks; the meaning of `.` is supplied by `dot`. -/
def lineChunk (dot : RE) : RE := .seq (lit '\n') (starLazy (.seq (star dot) (lit '\n')))

/-- `class\s+\w+.*:\s*\n.*_instance\s*=\s*None` under `re.DOTALL`. -/
def singletonRE : RE :=
  seqL [litStr "class", plus clsS, plus clsW, star dotAll, lit ':', star clsS,
    lit '\n', star dotAll, litStr "_instance", star clsS, lit '=', star clsS,
    litStr "None"]

/-- `def\s+create_\w+\s*\(` -/
def factoryRE : RE :=
  seqL [litStr "def", plus clsS, litStr "create_", plus clsW, star clsS, lit '(']

/-- `(notify|observer|subscribe)` -/
def observerRE : RE :=
  .alt (litStr "notify") (.alt (litStr "observer") (litStr "subscribe"))

/-- `def\s+execute\s*\(` -/
def strategyRE : RE :=
  seqL [litStr "def", plus clsS, litStr "execute", star clsS, lit '(']

/-- `class\s+\w+.*:\s*(?:\n(?:.*\n)*?){100,}` under `re.DOTALL`. -/
def godClassRE : RE :=
  seqL [litStr "class", plus clsS, plus clsW, star dotAll, lit ':', star clsS,
    .rep 100 true (lineChunk dotAll)]

/-- `def\s+\w+\s*\([^)]*\):\s*(?:\n(?:.*\n)*?){30,}` under `re.DOTALL`. -/
def longMethodRE : RE :=
  seqL [litStr "def", plus clsS, plus clsW, star clsS, lit '(',
    star (.cls (fun c => c != ')')), litStr "):", star clsS,
    .rep 30 true (lineChunk dotAll)]

/-- `\b\d{2,}\b` -/
def magicNumbersDetectRE : RE := seqL [.wb, .rep 2 true clsD, .wb]

/-- The design-pattern and anti-pattern registry of `_detect_code_patterns`
(name, type, matcher); all are applied under `re.MULTILINE | re.DOTALL`. -/
def code_pattern_defs : List (String × String × RE) :=
  [("Singleton Pattern", "design_pattern", singletonRE),
   ("Factory Pattern", "design_pattern", factoryRE),
   ("Observer Pattern", "design_pattern", observerRE),
   ("Strategy Pattern", "design_pattern", strategyRE),
   ("God Class", "anti_pattern", godClassRE),
   ("Long Method", "anti_pattern", longMethodRE),
   ("Magic Numbers", "anti_pattern", magicNumbersDetectRE)]

/-- `match.group()[:100] + '...' if len(match.group()) > 100 else match.group()` -/
def truncate100 (g : List Char) : String :=
  if g.length > 100 then String.mk (g.take 100 ++ ['.', '.', '.']) else String.mk g

/-- One entry of the list returned by `_detect_code_patterns`. -/
structure DetectedPattern where
  name : String
  type : String
  line_number : Nat
  matched_text : String
deriving DecidableEq

/-- `_detect_code_patterns`: apply every design-pattern and anti-pattern rule and report
each match with its line number and (100-character truncated) matched text. -/
def detect_code_patterns (content : String) : List DetectedPattern :=
  (code_pattern_defs.map (fun pd =>
    (patternMatches pd.2.2 content.data).map (fun m =>
      { name := pd.1, type := pd.2.1,
        line_number := lineNumberAt content.data m.1,
        matched_text := truncate100 (matchedChars content.data m.1 m.2) }))).flatten

/-- `content.split('\n')` (always at least one piece; `''` gives `['']`). -/
def splitLines : List Char → List (List Char)
  | [] => [[]]
  | c :: t =>
      if c == '\n' then [] :: splitLines t
      else
        match splitLines t with
        | [] => [[c]]
        | l :: ls => (c :: l) :: ls

/-- `line.strip()` (Python strips ASCII whitespace at both ends). -/
def pyStrip (l : List Char) : List Char :=
  ((l.dropWhile isPySpace).reverse.dropWhile isPySpace).reverse

/-- `line.strip().startswith('#')` given the stripped line. -/
def startsWithHash : List Char → Bool
  | c :: _ => c == '#'
  | [] => false

/-- `def\s+\w+\s*\(` -/
def functionDefRE : RE :=
  seqL [litStr "def", plus clsS, plus clsW, star clsS, lit '(']

/-- `class\s+\w+` -/
def classDefRE : RE := seqL [litStr "class", plus clsS, plus clsW]

/-- `(import\s+|from\s+.*\s+import)` -/
def importRE : RE :=
  .alt (.seq (litStr "import") (plus clsS))
    (seqL [litStr "from", plus clsS, star dotNoNl, plus clsS, litStr "import"])

/-- `len(re.findall(pattern, content))`. -/
def countMatches (re : RE) (content : String) : Nat :=
  (patternMatches re content.data).length

/-- The dictionary returned by `_calculate_code_metrics` (the optional Radon
complexity fields are absent: the external complexity provider is modelled as
unavailable). -/
structure CodeMetrics where
  total_lines : Nat
  code_lines : Nat
  comment_lines : Nat
  blank_lines : Nat
  functions_count : Nat
  classes_count : Nat
  imports_count : Nat
deriving DecidableEq

/-- `_calculate_code_metrics`. -/
def calculate_code_metrics (content : String) : CodeMetrics :=
  let lines := splitLines content.data
  { total_lines := lines.length,
    code_lines := lines.countP
      (fun l => !(pyStrip l).isEmpty && !startsWithHash (pyStrip l)),
    comment_lines := lines.countP (fun l => startsWithHash (pyStrip l)),
    blank_lines := lines.countP (fun l => (pyStrip l).isEmpty),
    functions_count := countMatches functionDefRE content,
    classes_count := countMatches classDefRE content,
    imports_count := countMatches importRE content }

/-- `#.*TODO|#.*FIXME|#.*HACK` under `re.IGNORECASE`. -/
def todoRE : RE :=
  .alt (seqL [lit '#', star dotNoNl, litStrCI "TODO"])
    (.alt (seqL [lit '#', star dotNoNl, litStrCI "FIXME"])
      (seqL [lit '#', star dotNoNl, litStrCI "HACK"]))

/-- `def\s+\w+\s*\([^)]*\):\s*(?:\n(?:.*\n)*?){20,}` (no `re.DOTALL` here). -/
def longFunctionDebtRE : RE :=
  seqL [litStr "def", plus clsS, plus clsW, star clsS, lit '(',
    star (.cls (fun c => c != ')')), litStr "):", star clsS,
    .rep 20 true (lineChunk dotNoNl)]

/-- `\b\d{3,}\b` -/
def magicNumbersDebtRE : RE := seqL [.wb, .rep 3 true clsD, .wb]

/-- `_detect_code_duplication`: among the stripped non-blank lines, count the
positions holding a line of length > 20 that occurs more than once, then halve
(integer division) to avoid double counting. -/
def detect_code_duplication (content : String) : Nat :=
  let lines := ((splitLines content.data).map pyStrip).filter (fun l => !l.isEmpty)
  (lines.countP (fun l => decide (l.length > 20) && decide (lines.count l > 1))) / 2

/-- `_count_deep_nesting`: count lines whose leading-whitespace length divided
by 4 exceeds 4. -/
def count_deep_nesting (content : String) : Nat :=
  (splitLines content.data).countP
    (fun l => decide ((l.takeWhile isPySpace).length / 4 > 4))

/-- `_assess_debt_level`. -/
def assess_debt_level (debt_score : Nat) : String :=
  if debt_score < 20 then "LOW"
  else if debt_score < 50 then "MEDIUM"
  else if debt_score < 80 then "HIGH"
  else "CRITICAL"

/-- The dictionary returned by `_calculate_technical_debt`. -/
structure TechnicalDebt where
  todo_comments : Nat
  code_duplication : Nat
  long_functions : Nat
  magic_numbers : Nat
  deep_nesting : Nat
  overall_score : Nat
  assessment : String
deriving DecidableEq

/-- `_calculate_technical_debt`. -/
def calculate_technical_debt (content : String) : TechnicalDebt :=
  let todo := countMatches todoRE content
  let dup := detect_code_duplication content
  let lf := countMatches longFunctionDebtRE content
  let mn := countMatches magicNumbersDebtRE content
  let dn := count_deep_nesting content
  let debt_score := min 100 (todo * 5 + dup * 10 + lf * 8 + mn * 2 + dn * 15)
  { todo_comments := todo, code_duplication := dup, long_functions := lf,
    magic_numbers := mn, deep_nesting := dn, overall_score := debt_score,
    assessment := assess_debt_level debt_score }

/-- Extension table of `_detect_file_type`. -/
def type_mapping : List (String × String) :=
  [(".py", "Python"), (".java", "Java"), (".js", "JavaScript"), (".ts", "TypeScript"),
   (".jsx", "React JSX"), (".tsx", "React TSX"), (".cpp", "C++"), (".c", "C"),
   (".cs", "C#"), (".go", "Go"), (".rs", "Rust"), (".php", "PHP"), (".rb", "Ruby"),
   (".scala", "Scala"), (".kt", "Kotlin")]

/-- Index of the last occurrence of `c` in `l`, if any (Python `str.rfind`). -/
def lastIndexOf (c : Char) (l : List Char) : Option Nat :=
  (List.range l.length).foldl
    (fun acc i => if l.get? i == some c then some i else acc) none

/-- The extension part of `os.path.splitext(path)[1]` (POSIX rules: the part
from the last dot, unless every character between the last path separator and
that dot is itself a dot). -/
def splitextExt (p : List Char) : List Char :=
  let sepIndex : Int := match lastIndexOf '/' p with
    | some i => (i : Int)
    | none => -1
  let dotIndex : Int := match lastIndexOf '.' p with
    | some i => (i : Int)
    | none => -1
  if sepIndex < dotIndex then
    if (((p.drop (sepIndex + 1).toNat).take (dotIndex - sepIndex - 1).toNat).any
        (fun c => c != '.')) then
      p.drop dotIndex.toNat
    else []
  else []

/-- `str.lower()` (per-character lowering; ASCII reading). -/
def pyLower (l : List Char) : List Char := l.map Char.toLower

/-- `_detect_file_type`: map the lower-cased extension through `type_mapping`,
defaulting to `Unknown`. -/
def detect_file_type (file_path : String) : String :=
  let ext := String.mk (pyLower (splitextExt file_path.data))
  (((type_mapping.find? (fun q => q.1 == ext)).map Prod.snd).getD "Unknown")

/-- The dictionary returned by `_analyze_complexity`.  The external complexity
provider (Radon) is out of scope and modelled as unavailable, so the initial
values are returned unchanged. -/
structure ComplexityAnalysis where
  total_functions : Nat
  complex_functions : List String
  average_complexity : Nat
  max_complexity : Nat
deriving DecidableEq

/-- `_analyze_complexity` with the complexity provider unavailable. -/
def analyze_complexity (_content : String) : ComplexityAnalysis :=
  { total_functions := 0, complex_functions := [], average_complexity := 0,
    max_complexity := 0 }

/-- The dictionary returned by `_generate_ai_insights`.  The ML enrichment
provider is out of scope and modelled as unavailable (`pipeline is None`), so
the initial `not_available` insights are returned unchanged. -/
structure AiInsights where
  status : String
  summary : String
  recommendations : List String
  code_quality : String
deriving DecidableEq

/-- `_generate_ai_insights` with the enrichment provider unavailable. -/
def generate_ai_insights (_content : String) : AiInsights :=
  { status := "not_available", summary := "", recommendations := [],
    code_quality := "unknown" }

/-- The fully populated analysis dictionary built by `analyze_code_file` when
no internal failure occurs. -/
structure FileAnalysis where
  file_path : String
  analyzed_at : String
  file_type : String
  metrics : CodeMetrics
  patterns : List DetectedPattern
  security_issues : List SecurityIssue
  performance_issues : List PerformanceIssue
  complexity_analysis : ComplexityAnalysis
  technical_debt : TechnicalDebt
  ai_insights : AiInsights
deriving DecidableEq

/-- Result of `analyze_code_file`: either the full analysis dictionary, or the
error dictionary `{'error': ..., 'file_path': ..., 'analyzed_at': ...}`
produced by the `except` branch. -/
inductive AnalysisOutcome where
  | ok (report : FileAnalysis) : AnalysisOutcome
  | err (file_path : String) (analyzed_at : String) (error : String) : AnalysisOutcome
deriving DecidableEq

/-- `analyze_code_file`.  The Python `try`/`except Exception` is embedded by
the `internal_failure` outcome: `.error e` stands for an unrecoverable
exception raised while building the analysis (the agent catches it and
returns the three-field error dictionary), `.ok ()` for a normal run.
`now` is `datetime.now().isoformat()`. -/
def analyze_code_file (internal_failure : Except String Unit)
    (now file_path content : String) : AnalysisOutcome :=
  match internal_failure with
  | .error e => .err file_path now e
  | .ok _ =>
      .ok { file_path := file_path, analyzed_at := now,
            file_type := detect_file_type file_path,
            metrics := calculate_code_metrics content,
            patterns := detect_code_patterns content,
            security_issues := scan_security_vulnerabilities content,
            performance_issues := analyze_performance_patterns content,
            complexity_analysis := analyze_complexity content,
            technical_debt := calculate_technical_debt content,
            ai_insights := generate_ai_insights content }

/-- One `{'name': ..., 'content': ...}` entry of `project_data['files']`. -/
structure ProjectFile where
  name : String
  content : String
deriving DecidableEq

/-- `_categorize_project_size`. -/
def categorize_project_size (total_lines : Nat) : String :=
  if total_lines < 1000 then "Small"
  else if total_lines < 10000 then "Medium"
  else if total_lines < 100000 then "Large"
  else "Very Large"

/-- `language_count[file_type] = language_count.get(file_type, 0) + 1` on an
insertion-ordered association list (a Python dict). -/
def bumpCount (m : List (String × Nat)) (k : String) : List (String × Nat) :=
  if m.any (fun q => q.1 == k) then
    m.map (fun q => if q.1 == k then (q.1, q.2 + 1) else q)
  else m ++ [(k, 1)]

/-- `max(language_count, key=language_count.get)`: the first key attaining the
maximal count, in insertion order. -/
def firstMaxKey : List (String × Nat) → String
  | [] => "Unknown"
  | q :: t => (t.foldl (fun best r => if r.2 > best.2 then r else best) q).1

/-- The dictionary returned by `_analyze_project_overview`. -/
structure ProjectOverview where
  total_files : Nat
  total_lines_of_code : Nat
  primary_language : String
  language_distribution : List (String × Nat)
  project_size : String
  file_types : List String
deriving DecidableEq

/-- `_analyze_project_overview`. -/
def analyze_project_overview (files : List ProjectFile) : ProjectOverview :=
  let language_count := files.foldl (fun m f => bumpCount m (detect_file_type f.name)) []
  let total_lines := files.foldl (fun acc f => acc + (splitLines f.content.data).length) 0
  let primary := if language_count.isEmpty then "Unknown" else firstMaxKey language_count
  { total_files := files.length, total_lines_of_code := total_lines,
    primary_language := primary, language_distribution := language_count,
    project_size := categorize_project_size total_lines,
    file_types := language_count.map Prod.fst }

/-- One architecture-pattern entry of `_detect_architecture_patterns`
(`confidence` is the Python float, modelled exactly in `ℚ`). -/
structure ArchitecturePattern where
  name : String
  confidence : ℚ
  description : String
deriving DecidableEq

/-- Python's `needle in hay` on strings (contiguous substring). -/
def containsSub (needle : List Char) : List Char → Bool
  | [] => needle.isEmpty
  | c :: t => needle.isPrefixOf (c :: t) || containsSub needle t

/-- `sub in name.lower()`. -/
def nameHas (sub : String) (name : String) : Bool :=
  containsSub sub.data (pyLower name.data)

/-- `_detect_architecture_patterns`: purely name-based checks, evaluated
independently in MVC, microservices, repository order. -/
def detect_architecture_patterns (files : List ProjectFile) : List ArchitecturePattern :=
  let file_names := files.map (fun f => f.name)
  let mvc := (file_names.any (fun n => nameHas "controller" n)) &&
    (file_names.any (fun n => nameHas "model" n)) &&
    (file_names.any (fun n => nameHas "view" n))
  let micro := (file_names.any (fun n => nameHas "service" n)) &&
    decide ((file_names.filter (fun n => nameHas "api" n)).length > 2)
  let repo := file_names.any (fun n => nameHas "repository" n)
  (if mvc then
    [⟨"Model-View-Controller (MVC)", 4/5, "Traditional MVC architecture pattern detected"⟩]
   else []) ++
  (if micro then
    [⟨"Microservices Architecture", 7/10, "Multiple service components suggest microservices pattern"⟩]
   else []) ++
  (if repo then
    [⟨"Repository Pattern", 9/10, "Data access abstraction through repository pattern"⟩]
   else [])

/-- `round(x, 1)`: round to one decimal digit (ties round upward; the Python
floats involved here are modelled as exact rationals). -/
def round1 (q : ℚ) : ℚ := (round (10 * q) : ℤ) / 10

/-- `_calculate_overall_quality_score`, as a function of the three metric
entries it reads (`security_issues_count`, `performance_issues_count` and the
optional `average_technical_debt`, whose absent default is `0`). -/
def calculate_overall_quality_score (security_issues_count : Nat)
    (performance_issues_count : Nat) (average_technical_debt : Option ℚ) : ℚ :=
  let base_score : ℚ := 100
  let security_penalty : ℚ := min 30 ((security_issues_count : ℚ) * 5)
  let performance_penalty : ℚ := min 20 ((performance_issues_count : ℚ) * 3)
  let debt_penalty : ℚ := min 40 ((average_technical_debt.getD 0) * (2 / 5))
  round1 (max 0 (base_score - security_penalty - performance_penalty - debt_penalty))

/-- `_rate_quality`. -/
def rate_quality (score : ℚ) : String :=
  if score ≥ 80 then "Excellent"
  else if score ≥ 60 then "Good"
  else if score ≥ 40 then "Fair"
  else "Poor"

/-- The dictionary returned by `_summarize_code_quality`
(`average_technical_debt` is present only when at least one file has
non-empty content; `average_complexity` is initialised to 0 and never
updated). -/
structure QualitySummary where
  total_functions : Nat
  total_classes : Nat
  average_complexity : Nat
  security_issues_count : Nat
  performance_issues_count : Nat
  technical_debt_score : Nat
  average_technical_debt : Option ℚ
  analyzed_files : Nat
  overall_quality_score : ℚ
  quality_rating : String
deriving DecidableEq

/-- `_summarize_code_quality`: sums taken over the files with non-empty
content (`if content:`). -/
def summarize_code_quality (files : List ProjectFile) : QualitySummary :=
  let analyzed := files.filter (fun f => f.content != "")
  let total_functions :=
    (analyzed.map (fun f => (calculate_code_metrics f.content).functions_count)).sum
  let total_classes :=
    (analyzed.map (fun f => (calculate_code_metrics f.content).classes_count)).sum
  let sec := (analyzed.map (fun f => (scan_security_vulnerabilities f.content).length)).sum
  let perf := (analyzed.map (fun f => (analyze_performance_patterns f.content).length)).sum
  let debt_total :=
    (analyzed.map (fun f => (calculate_technical_debt f.content).overall_score)).sum
  let file_count := analyzed.length
  let avg : Option ℚ :=
    if file_count > 0 then some ((debt_total : ℚ) / (file_count : ℚ)) else none
  let quality_score := calculate_overall_quality_score sec perf avg
  { total_functions := total_functions, total_classes := total_classes,
    average_complexity := 0, security_issues_count := sec,
    performance_issues_count := perf, technical_debt_score := debt_total,
    average_technical_debt := avg, analyzed_files := file_count,
    overall_quality_score := quality_score,
    quality_rating := rate_quality quality_score }

/-- A security issue of the project-level list: the per-file issue with the
file name attached (`issue['file'] = file_info.get('name', 'unknown')`). -/
structure ProjectSecurityIssue where
  name : String
  severity : String
  description : String
  line_number : Nat
  matched_code : String
  file : String
deriving DecidableEq

/-- `all_security_issues` of `_assess_project_security`, in discovery order:
files in input order, and within a file the scanner's order. -/
def project_security_issues (files : List ProjectFile) : List ProjectSecurityIssue :=
  (files.map (fun f =>
    if f.content != "" then
      (scan_security_vulnerabilities f.content).map (fun i =>
        { name := i.name, severity := i.severity, description := i.description,
          line_number := i.line_number, matched_code := i.matched_code,
          file := f.name })
    else [])).flatten

/-- `_rate_security`. -/
def rate_security (score : Int) : String :=
  if score ≥ 90 then "Excellent"
  else if score ≥ 70 then "Good"
  else if score ≥ 50 then "Fair"
  else "Poor"

/-- The dictionary returned by `_assess_project_security`. -/
structure SecurityAssessment where
  total_issues : Nat
  high_severity_issues : Nat
  medium_severity_issues : Nat
  low_severity_issues : Nat
  security_score : Int
  security_rating : String
  top_issues : List ProjectSecurityIssue
deriving DecidableEq

/-- `_assess_project_security`. -/
def assess_project_security (files : List ProjectFile) : SecurityAssessment :=
  let all := project_security_issues files
  let high := (all.filter (fun i => i.severity == "HIGH")).length
  let med := (all.filter (fun i => i.severity == "MEDIUM")).length
  let low := (all.filter (fun i => i.severity == "LOW")).length
  let score : Int := max 0 (100 - ((high : Int) * 20 + (med : Int) * 10 + (low : Int) * 5))
  { total_issues := all.length, high_severity_issues := high,
    medium_severity_issues := med, low_severity_issues := low,
    security_score := score, security_rating := rate_security score,
    top_issues := all.take 5 }

/-- A performance issue of the project-level list, with the file name
attached. -/
structure ProjectPerformanceIssue where
  name : String
  severity : String
  description : String
  line_number : Nat
  suggestion : String
  file : String
deriving DecidableEq

/-- `all_performance_issues` of `_analyze_project_performance`, in discovery
order. -/
def project_performance_issues (files : List ProjectFile) : List ProjectPerformanceIssue :=
  (files.map (fun f =>
    if f.content != "" then
      (analyze_performance_patterns f.content).map (fun i =>
        { name := i.name, severity := i.severity, description := i.description,
          line_number := i.line_number, suggestion := i.suggestion,
          file := f.name })
    else [])).flatten

/-- The dictionary returned by `_analyze_project_performance`. -/
structure PerformanceAnalysis where
  total_performance_issues : Nat
  critical_issues : Nat
  performance_score : Int
  top_issues : List ProjectPerformanceIssue
deriving DecidableEq

/-- `_analyze_project_performance`. -/
def analyze_project_performance (files : List ProjectFile) : PerformanceAnalysis :=
  let all := project_performance_issues files
  { total_performance_issues := all.length,
    critical_issues := (all.filter (fun i => i.severity == "HIGH")).length,
    performance_score := max 0 (100 - (all.length : Int) * 10),
    top_issues := all.take 5 }

/-- The dictionary returned by `_calculate_maintainability_score`. -/
structure MaintainabilityScore where
  maintainability_score : ℚ
  maintainability_rating : String
  average_technical_debt : ℚ
  files_analyzed : Nat
deriving DecidableEq

/-- `_calculate_maintainability_score`. -/
def calculate_maintainability_score (files : List ProjectFile) : MaintainabilityScore :=
  let analyzed := files.filter (fun f => f.content != "")
  let debt_total :=
    (analyzed.map (fun f => (calculate_technical_debt f.content).overall_score)).sum
  let file_count := analyzed.length
  let average_debt : ℚ :=
    if file_count > 0 then (debt_total : ℚ) / (file_count : ℚ) else 0
  let score : ℚ := max 0 (100 - average_debt)
  { maintainability_score := round1 score,
    maintainability_rating := rate_quality score,
    average_technical_debt := round1 average_debt,
    files_analyzed := file_count }

/-- One `Recommendation` dictionary. -/
structure Recommendation where
  category : String
  priority : String
  title : String
  description : String
deriving DecidableEq

/-- `_generate_project_recommendations`: a fixed rule list evaluated in
order, truncated to the first 10 entries. -/
def generate_project_recommendations (files : List ProjectFile) : List Recommendation :=
  let overview := analyze_project_overview files
  let security := assess_project_security files
  let performance := analyze_project_performance files
  let recs :=
    (if security.high_severity_issues > 0 then
      [{ category := "Security", priority := "HIGH",
         title := "Address High-Severity Security Issues",
         description := "Found " ++ toString security.high_severity_issues ++
           " high-severity security issues that need immediate attention." }]
     else []) ++
    (if performance.critical_issues > 0 then
      [{ category := "Performance", priority := "MEDIUM",
         title := "Optimize Performance Bottlenecks",
         description := "Found " ++ toString performance.critical_issues ++
           " performance issues that could impact application speed." }]
     else []) ++
    (if overview.project_size == "Large" || overview.project_size == "Very Large" then
      [{ category := "Architecture", priority := "MEDIUM",
         title := "Consider Code Modularization",
         description := "Large codebase detected. Consider breaking down into smaller, more manageable modules." }]
     else []) ++
    [{ category := "Testing", priority := "MEDIUM",
       title := "Implement Comprehensive Testing",
       description := "Add unit tests, integration tests, and automated testing to improve code reliability." },
     { category := "Documentation", priority := "LOW",
       title := "Improve Code Documentation",
       description := "Add comprehensive documentation, API docs, and inline comments for better maintainability." }]
  recs.take 10

/-- Concrete input refuting claim C9: the empty content. -/
def emptyContent : String := ""

/-- Concrete input refuting claim C3: one line holding two hardcoded
credentials. -/
def c3input : String := "password = \"a\"; secret = \"b\""

/-- Concrete input refuting claim C8: a hardcoded credential whose matched
text is 133 characters long. -/
def c8input : String := "password = \"" ++ String.mk (List.replicate 120 'x') ++ "\""

/-- Concrete input refuting claim C2: three analyzable files with technical
debt scores 5, 5 and 0, so that the average debt 10/3 makes the quality
score a non-terminating decimal that `round(x, 1)` visibly rounds. -/
def c2files : List ProjectFile :=
  [⟨"a.py", "# TODO fix"⟩, ⟨"b.py", "# TODO fix"⟩, ⟨"c.py", "x = 1"⟩]

/-- Concrete input refuting claim C5: one file with one LOW-severity security
issue (insecure randomness) and no high-severity issues. -/
def c5files : List ProjectFile := [⟨"a.py", "Math.random()"⟩]

/-- File list of the MVC example of claim C6. -/
def c6files : List ProjectFile :=
  [⟨"UserController.java", ""⟩, ⟨"UserModel.java", ""⟩, ⟨"UserView.java", ""⟩]

/-- One-step unfolding of the finditer loop at positive fuel. -/
theorem findAux_succ (re : RE) (fuel : Nat) (prev : Option Char) (s : List Char)
    (i : Nat) :
    findAux re (fuel + 1) prev s i =
      match matchAt re prev s with
      | some len =>
          (i, len) :: findAux re fuel (advance prev s (max len 1)).1
            (advance prev s (max len 1)).2 (i + max len 1)
      | none =>
          match s with
          | [] => []
          | c :: t => findAux re fuel (some c) t (i + 1) := rfl

/-- Every match reported by the finditer loop starts at or after the offset
the loop was entered with. -/
theorem findAux_start_le (re : RE) :
    ∀ (fuel : Nat) (prev : Option Char) (s : List Char) (i : Nat),
      ∀ m ∈ findAux re fuel prev s i, i ≤ m.1 := by
  intro fuel
  induction fuel with
  | zero => intro prev s i m hm; simp [findAux] at hm
  | succ n ih =>
      intro prev s i m hm
      rw [findAux_succ] at hm
      rcases hma : matchAt re prev s with _ | len
      · rw [hma] at hm
        rcases s with _ | ⟨c, t⟩
        · simp at hm
        · have := ih (some c) t (i + 1) m hm
          omega
      · rw [hma] at hm
        simp only [List.mem_cons] at hm
        rcases hm with rfl | hm
        · exact le_refl _
        · have := ih _ _ (i + max len 1) m hm
          omega

/-- The start offsets reported by the finditer loop are pairwise strictly
increasing. -/
theorem findAux_pairwise (re : RE) :
    ∀ (fuel : Nat) (prev : Option Char) (s : List Char) (i : Nat),
      ((findAux re fuel prev s i).map Prod.fst).Pairwise (· < ·) := by
  intro fuel
  induction fuel with
  | zero => intro prev s i; simp [findAux]
  | succ n ih =>
      intro prev s i
      rw [findAux_succ]
      rcases hma : matchAt re prev s with _ | len
      · rcases s with _ | ⟨c, t⟩
        · simp
        · exact ih (some c) t (i + 1)
      · simp only [List.map_cons, List.pairwise_cons]
        constructor
        · intro b hb
          obtain ⟨m, hm, rfl⟩ := List.mem_map.mp hb
          have hle := findAux_start_le re n _ _ (i + max len 1) m hm
          have h1 : 1 ≤ max len 1 := le_max_right _ _
          omega
        · exact ih _ _ _

/-- `truncate100` never yields more than 103 characters (100 plus the
three-character ellipsis). -/
theorem truncate100_length_le (g : List Char) : (truncate100 g).length ≤ 103 := by
  unfold truncate100
  split
  · show (g.take 100 ++ ['.', '.', '.']).length ≤ 103
    rw [List.length_append, List.length_take]
    simp
  · show g.length ≤ 103
    omega

/-- Each line is counted by exactly one of the code/comment/blank predicates
of `_calculate_code_metrics`. -/
theorem lines_partition (l : List (List Char)) :
    l.length =
      l.countP (fun x => !(pyStrip x).isEmpty && !startsWithHash (pyStrip x)) +
        l.countP (fun x => startsWithHash (pyStrip x)) +
        l.countP (fun x => (pyStrip x).isEmpty) := by
  induction l with
  | nil => rfl
  | cons h t ih =>
      simp only [List.countP_cons, List.length_cons]
      have key :
          (if (!(pyStrip h).isEmpty && !startsWithHash (pyStrip h)) = true
            then (1 : Nat) else 0) +
            (if startsWithHash (pyStrip h) = true then (1 : Nat) else 0) +
            (if (pyStrip h).isEmpty = true then (1 : Nat) else 0) = 1 := by
        rcases hps : pyStrip h with _ | ⟨c, cs⟩
        · simp [startsWithHash]
        · rcases hc : c == '#'
          · simp [startsWithHash, hc]
          · simp [startsWithHash, hc]
      omega

/-- Claim C1: for every input text the technical-debt score is the weighted
sum `min(100, deferred*5 + duplicates*10 + longFunctions*8 + magicNumbers*2 +
deepNesting*15)`, it lies in `[0, 100]` (it is a natural number, so the lower
bound is automatic), its rating is the threshold function of the score
(`<20` LOW, `<50` MEDIUM, `<80` HIGH, else CRITICAL), and a score of exactly
20 rates MEDIUM. -/
theorem C1_debt_score_formula_and_rating (content : String) :
    (calculate_technical_debt content).overall_score =
      min 100 ((calculate_technical_debt content).todo_comments * 5 +
        (calculate_technical_debt content).code_duplication * 10 +
        (calculate_technical_debt content).long_functions * 8 +
        (calculate_technical_debt content).magic_numbers * 2 +
        (calculate_technical_debt content).deep_nesting * 15) ∧
    (calculate_technical_debt content).overall_score ≤ 100 ∧
    (calculate_technical_debt content).assessment =
      (if (calculate_technical_debt content).overall_score < 20 then "LOW"
       else if (calculate_technical_debt content).overall_score < 50 then "MEDIUM"
       else if (calculate_technical_debt content).overall_score < 80 then "HIGH"
       else "CRITICAL") ∧
    assess_debt_level 20 = "MEDIUM" := by
  refine ⟨rfl, ?_, rfl, rfl⟩
  exact min_le_left _ _

/-- Claim C10: the line classification of `_calculate_code_metrics` is a
partition — every line is exactly one of code, comment or blank, so the
total line count is the sum of the three class counts. -/
theorem C10_line_classification_partition (content : String) :
    (calculate_code_metrics content).total_lines =
      (calculate_code_metrics content).code_lines +
        (calculate_code_metrics content).comment_lines +
        (calculate_code_metrics content).blank_lines :=
  lines_partition (splitLines content.data)

/-- Counterexample to claim C9 as stated: Python's `''.split('\n')` is
`['']`, so the empty content has one (blank) line, not zero lines, and
`total_lines` is 1, not 0. -/
theorem C9_counterexample :
    (calculate_code_metrics emptyContent).total_lines ≠ 0 := by decide

/-- Claim C9 as amended: for empty content the splitter produces a single
empty line, so `total_lines = blank_lines = 1` while the code, comment,
function, class and import counts are 0; every technical-debt indicator is 0,
the debt score is 0 and the rating is LOW. -/
theorem C9_empty_content_metrics_and_debt :
    calculate_code_metrics emptyContent = ⟨1, 0, 0, 1, 0, 0, 0⟩ ∧
    calculate_technical_debt emptyContent = ⟨0, 0, 0, 0, 0, 0, "LOW"⟩ := by decide

/-- Claim C7: `analyze_code_file` never lets an internal failure escape — a
failing run returns the error report holding exactly the path, the timestamp
and the error message, and a successful run returns the fully populated
report (every field computed from the path or the content). -/
theorem C7_error_isolation (internal_failure : Except String Unit)
    (now file_path content : String) :
    (∃ e, internal_failure = .error e ∧
      analyze_code_file internal_failure now file_path content =
        .err file_path now e) ∨
    (internal_failure = .ok () ∧
      analyze_code_file internal_failure now file_path content =
        .ok { file_path := file_path, analyzed_at := now,
              file_type := detect_file_type file_path,
              metrics := calculate_code_metrics content,
              patterns := detect_code_patterns content,
              security_issues := scan_security_vulnerabilities content,
              performance_issues := analyze_performance_patterns content,
              complexity_analysis := analyze_complexity content,
              technical_debt := calculate_technical_debt content,
              ai_insights := generate_ai_insights content }) := by
  rcases internal_failure with e | u
  · exact Or.inl ⟨e, rfl, rfl⟩
  · exact Or.inr ⟨rfl, rfl⟩

set_option maxRecDepth 40000 in
/-- Counterexample to claim C3 as stated: on a single line holding two
hardcoded credentials, the security scanner reports two matches of the same
rule ("Hardcoded Credentials") with the same line number 1. -/
theorem C3_counterexample :
    (scan_security_vulnerabilities c3input).map (fun i => (i.name, i.line_number)) =
      [("Hardcoded Credentials", 1), ("Hardcoded Credentials", 1)] := by decide

/-- Claim C3 as amended: the scanners report at most one match per
(rule, start offset) pair — for every rule and every input the start offsets
of that rule's reported matches are pairwise strictly increasing (they are
the non-overlapping `finditer` occurrences) — but a single line may
contribute several matches of the same rule. -/
theorem C3_rule_matches_strictly_increasing (p : PatternDef) (content : String) :
    ((rule_matches p content).map Prod.fst).Pairwise (· < ·) :=
  findAux_pairwise p.re (content.data.length + 1) none content.data 0

set_option maxRecDepth 200000 in
/-- Counterexample to claim C8 as stated: the security scanner stores the
matched text untruncated, so a 133-character hardcoded-credential match is
reported with all 133 characters. -/
theorem C8_counterexample :
    (scan_security_vulnerabilities c8input).map (fun i => i.matched_code.length) =
      [133] := by decide

/-- Claim C8 as amended: the matched text of `_detect_code_patterns` entries
is truncated to at most 103 characters (the first 100 characters plus a
three-character ellipsis when the match is longer than 100); the matched text
of security issues is stored untruncated. -/
theorem C8_matched_text_truncation (content : String) :
    (detect_code_patterns content).all
      (fun m => m.matched_text.length ≤ 103) = true := by
  rw [List.all_eq_true]
  intro m hm
  simp only [detect_code_patterns, List.mem_flatten, List.mem_map] at hm
  obtain ⟨blk, ⟨pd, _, rfl⟩, hmblk⟩ := hm
  obtain ⟨mm, _, rfl⟩ := List.mem_map.mp hmblk
  simpa using truncate100_length_le (matchedChars content.data mm.1 mm.2)

/-- Claim C4: the project security score is
`max(0, 100 - (high*20 + medium*10 + low*5))`, the rating is the threshold
function of the score (`≥90` Excellent, `≥70` Good, `≥50` Fair, else Poor),
and the reported top issues are exactly the first five discovered issues in
discovery order (no re-sorting by severity). -/
theorem C4_security_assessment (files : List ProjectFile) :
    (assess_project_security files).security_score =
      max 0 (100 - (((assess_project_security files).high_severity_issues : Int) * 20 +
        ((assess_project_security files).medium_severity_issues : Int) * 10 +
        ((assess_project_security files).low_severity_issues : Int) * 5)) ∧
    (assess_project_security files).security_rating =
      (if (assess_project_security files).security_score ≥ 90 then "Excellent"
       else if (assess_project_security files).security_score ≥ 70 then "Good"
       else if (assess_project_security files).security_score ≥ 50 then "Fair"
       else "Poor") ∧
    (assess_project_security files).top_issues =
      (project_security_issues files).take 5 :=
  ⟨rfl, rfl, rfl⟩

/-- Counterexample to claim C5 as stated: a project containing a security
issue (one LOW-severity insecure-randomness finding) whose recommendation
list nevertheless contains no security item — the code emits the security
recommendation only when *high-severity* issues are present (and the
performance recommendation only when *high-severity* performance issues are
present, which no built-in performance rule can produce). -/
theorem C5_counterexample :
    (assess_project_security c5files).total_issues = 1 ∧
    generate_project_recommendations c5files =
      [⟨"Testing", "MEDIUM", "Implement Comprehensive Testing",
        "Add unit tests, integration tests, and automated testing to improve code reliability."⟩,
       ⟨"Documentation", "LOW", "Improve Code Documentation",
        "Add comprehensive documentation, API docs, and inline comments for better maintainability."⟩] := by
  constructor
  · decide
  · decide

/-- Claim C5 as amended: the recommendation list is the fixed rule list in
order — a HIGH security item when *high-severity* security issues are
present, a MEDIUM performance item when *high-severity* ("critical")
performance issues are present, a MEDIUM modularization item when the
project size is Large or Very Large, then always a testing and a
documentation item — truncated to the first 10 entries. -/
theorem C5_recommendation_rules (files : List ProjectFile) :
    generate_project_recommendations files =
      ((if 0 < (assess_project_security files).high_severity_issues then
         [({ category := "Security", priority := "HIGH",
             title := "Address High-Severity Security Issues",
             description := "Found " ++
               toString (assess_project_security files).high_severity_issues ++
               " high-severity security issues that need immediate attention." } :
           Recommendation)]
        else []) ++
       (if 0 < (analyze_project_performance files).critical_issues then
         [({ category := "Performance", priority := "MEDIUM",
             title := "Optimize Performance Bottlenecks",
             description := "Found " ++
               toString (analyze_project_performance files).critical_issues ++
               " performance issues that could impact application speed." } :
           Recommendation)]
        else []) ++
       (if (analyze_project_overview files).project_size = "Large" ∨
           (analyze_project_overview files).project_size = "Very Large" then
         [({ category := "Architecture", priority := "MEDIUM",
             title := "Consider Code Modularization",
             description := "Large codebase detected. Consider breaking down into smaller, more manageable modules." } :
           Recommendation)]
        else []) ++
       [({ category := "Testing", priority := "MEDIUM",
           title := "Implement Comprehensive Testing",
           description := "Add unit tests, integration tests, and automated testing to improve code reliability." } :
         Recommendation),
        ({ category := "Documentation", priority := "LOW",
           title := "Improve Code Documentation",
           description := "Add comprehensive documentation, API docs, and inline comments for better maintainability." } :
         Recommendation)]).take 10 := by
  have hsize :
      (if (analyze_project_overview files).project_size = "Large" ∨
          (analyze_project_overview files).project_size = "Very Large" then
        [({ category := "Architecture", priority := "MEDIUM",
            title := "Consider Code Modularization",
            description := "Large codebase detected. Consider breaking down into smaller, more manageable modules." } :
          Recommendation)]
       else []) =
      (if ((analyze_project_overview files).project_size == "Large" ||
          (analyze_project_overview files).project_size == "Very Large") = true then
        [({ category := "Architecture", priority := "MEDIUM",
            title := "Consider Code Modularization",
            description := "Large codebase detected. Consider breaking down into smaller, more manageable modules." } :
          Recommendation)]
       else []) := by
    refine if_congr ?_ rfl rfl
    simp
  rw [hsize]
  rfl

/-- Claim C6: architecture-pattern inference is purely name-based — the
result is determined by which of the three independent, non-exclusive
name-substring checks succeed, with fixed confidences 0.8 (MVC when some
name contains "controller", some "model" and some "view", case-insensitively),
0.7 (microservices when some name contains "service" and more than two
contain "api") and 0.9 (Repository when some name contains "repository") —
and the file names UserController.java, UserModel.java, UserView.java yield
exactly the MVC entry with confidence 0.8. -/
theorem C6_architecture_patterns (files : List ProjectFile) :
    detect_architecture_patterns files =
      ((if (files.map (fun f => f.name)).any (fun n => nameHas "controller" n) &&
           (files.map (fun f => f.name)).any (fun n => nameHas "model" n) &&
           (files.map (fun f => f.name)).any (fun n => nameHas "view" n) then
         [({ name := "Model-View-Controller (MVC)", confidence := 4/5,
             description := "Traditional MVC architecture pattern detected" } :
           ArchitecturePattern)]
        else []) ++
       (if (files.map (fun f => f.name)).any (fun n => nameHas "service" n) &&
           decide (((files.map (fun f => f.name)).filter
             (fun n => nameHas "api" n)).length > 2) then
         [({ name := "Microservices Architecture", confidence := 7/10,
             description := "Multiple service components suggest microservices pattern" } :
           ArchitecturePattern)]
        else []) ++
       (if (files.map (fun f => f.name)).any (fun n => nameHas "repository" n) then
         [({ name := "Repository Pattern", confidence := 9/10,
             description := "Data access abstraction through repository pattern" } :
           ArchitecturePattern)]
        else [])) ∧
    detect_architecture_patterns c6files =
      [({ name := "Model-View-Controller (MVC)", confidence := 4/5,
          description := "Traditional MVC architecture pattern detected" } :
        ArchitecturePattern)] := by
  constructor
  · rfl
  · have h1 : (c6files.map (fun f => f.name)).any (fun n => nameHas "controller" n) = true := by
      decide
    have h2 : (c6files.map (fun f => f.name)).any (fun n => nameHas "model" n) = true := by
      decide
    have h3 : (c6files.map (fun f => f.name)).any (fun n => nameHas "view" n) = true := by
      decide
    have h4 : (c6files.map (fun f => f.name)).any (fun n => nameHas "service" n) = false := by
      decide
    have h5 : (c6files.map (fun f => f.name)).any (fun n => nameHas "repository" n) = false := by
      decide
    simp [detect_architecture_patterns, h1, h2, h3, h4, h5]

/-- `round1` of a nonnegative value is nonnegative. -/
theorem round1_nonneg {q : ℚ} (h : 0 ≤ q) : 0 ≤ round1 q := by
  unfold round1
  apply div_nonneg _ (by norm_num)
  have hr : (0 : ℤ) ≤ round (10 * q) := by
    rw [round_eq]
    exact Int.floor_nonneg.mpr (by linarith)
  exact_mod_cast hr

/-- `round1` of a value at most 100 is at most 100. -/
theorem round1_le_100 {q : ℚ} (h : q ≤ 100) : round1 q ≤ 100 := by
  unfold round1
  rw [div_le_iff₀ (by norm_num : (0 : ℚ) < 10)]
  have h1 : round (10 * q) ≤ 1000 := by
    rw [round_eq]
    have h2 : ⌊10 * q + 1 / 2⌋ ≤ ⌊(1000 : ℚ) + 1 / 2⌋ := Int.floor_mono (by linarith)
    have h3 : ⌊(1000 : ℚ) + 1 / 2⌋ = 1000 := by
      rw [Int.floor_eq_iff]
      norm_num
    omega
  calc ((round (10 * q) : ℤ) : ℚ) ≤ 1000 := by exact_mod_cast h1
    _ = 100 * 10 := by norm_num

/-- `_calculate_overall_quality_score`, written out. -/
theorem calculate_overall_quality_score_eq (sec perf : Nat) (avg : Option ℚ) :
    calculate_overall_quality_score sec perf avg =
      round1 (max 0 (100 - min 30 ((sec : ℚ) * 5) - min 20 ((perf : ℚ) * 3) -
        min 40 ((avg.getD 0) * (2 / 5)))) := rfl

/-- The quality summary's score field is `_calculate_overall_quality_score`
applied to the summary's own counts and average. -/
theorem summarize_score_eq (files : List ProjectFile) :
    (summarize_code_quality files).overall_quality_score =
      calculate_overall_quality_score
        (summarize_code_quality files).security_issues_count
        (summarize_code_quality files).performance_issues_count
        (summarize_code_quality files).average_technical_debt := rfl

/-- The quality summary's average debt field is the debt total divided by the
number of analyzed files (absent when no file was analyzable). -/
theorem summarize_avg_eq (files : List ProjectFile) :
    (summarize_code_quality files).average_technical_debt =
      (if (summarize_code_quality files).analyzed_files > 0 then
        some (((summarize_code_quality files).technical_debt_score : ℚ) /
          ((summarize_code_quality files).analyzed_files : ℚ))
       else none) := rfl

/-- Claim C2 as amended: the overall quality score equals
`max(0, 100 - min(30, sec*5) - min(20, perf*3) - min(40, avgDebt*0.4))`
*rounded to one decimal digit* (`round(x, 1)` in the code), and it always
lies in `[0, 100]`. -/
theorem C2_overall_quality_score (files : List ProjectFile) :
    (summarize_code_quality files).overall_quality_score =
      round1 (max 0 (100
        - min 30 (((summarize_code_quality files).security_issues_count : ℚ) * 5)
        - min 20 (((summarize_code_quality files).performance_issues_count : ℚ) * 3)
        - min 40 ((((summarize_code_quality files).average_technical_debt).getD 0) *
            (2 / 5)))) ∧
    0 ≤ (summarize_code_quality files).overall_quality_score ∧
    (summarize_code_quality files).overall_quality_score ≤ 100 := by
  have havg : 0 ≤ ((summarize_code_quality files).average_technical_debt).getD 0 := by
    rw [summarize_avg_eq]
    split
    · simp only [Option.getD_some]
      positivity
    · simp
  refine ⟨rfl, ?_, ?_⟩
  · rw [summarize_score_eq, calculate_overall_quality_score_eq]
    exact round1_nonneg (le_max_left _ _)
  · rw [summarize_score_eq, calculate_overall_quality_score_eq]
    apply round1_le_100
    have p1 : (0 : ℚ) ≤
        min 30 (((summarize_code_quality files).security_issues_count : ℚ) * 5) :=
      le_min (by norm_num) (by positivity)
    have p2 : (0 : ℚ) ≤
        min 20 (((summarize_code_quality files).performance_issues_count : ℚ) * 3) :=
      le_min (by norm_num) (by positivity)
    have p3 : (0 : ℚ) ≤
        min 40 ((((summarize_code_quality files).average_technical_debt).getD 0) *
          (2 / 5)) :=
      le_min (by norm_num) (mul_nonneg havg (by norm_num))
    apply max_le (by norm_num)
    linarith

/-- Counterexample to claim C2 as stated: three analyzable files with no
security or performance issues and debt scores 5, 5, 0 give an average debt
of 10/3, so the claimed formula yields 100 - 4/3 = 296/3 = 98.666…, while the
code rounds to one decimal digit and returns 98.7. -/
theorem C2_counterexample :
    (summarize_code_quality c2files).security_issues_count = 0 ∧
    (summarize_code_quality c2files).performance_issues_count = 0 ∧
    (summarize_code_quality c2files).average_technical_debt = some ((10 : ℚ) / 3) ∧
    (summarize_code_quality c2files).overall_quality_score ≠
      max 0 (100
        - min 30 (((summarize_code_quality c2files).security_issues_count : ℚ) * 5)
        - min 20 (((summarize_code_quality c2files).performance_issues_count : ℚ) * 3)
        - min 40 ((((summarize_code_quality c2files).average_technical_debt).getD 0) *
            (2 / 5))) := by
  have hsec : (summarize_code_quality c2files).security_issues_count = 0 := by decide
  have hperf : (summarize_code_quality c2files).performance_issues_count = 0 := by decide
  have hdebt : (summarize_code_quality c2files).technical_debt_score = 10 := by decide
  have hcount : (summarize_code_quality c2files).analyzed_files = 3 := by decide
  have havg : (summarize_code_quality c2files).average_technical_debt =
      some ((10 : ℚ) / 3) := by
    rw [summarize_avg_eq, hdebt, hcount]
    norm_num
  refine ⟨hsec, hperf, havg, ?_⟩
  rw [summarize_score_eq, hsec, hperf, havg, calculate_overall_quality_score_eq]
  have hval : max (0 : ℚ) (100 - min 30 (((0 : Nat) : ℚ) * 5) -
      min 20 (((0 : Nat) : ℚ) * 3) -
      min 40 ((Option.getD (some ((10 : ℚ) / 3)) 0) * (2 / 5))) = 296 / 3 := by
    simp only [Option.getD_some, Nat.cast_zero]
    rw [min_eq_right (by norm_num), max_eq_right] <;> norm_num
  rw [hval]
  unfold round1
  have hr : round ((10 : ℚ) * (296 / 3)) = 987 := by
    rw [round_eq, Int.floor_eq_iff]
    norm_num
  rw [hr]
  norm_num
